import Mathlib

/-!
Verification of the article/comment subsystem of the Django-Newspaper-App
repository: a shallow embedding of `articles/models.py`, `articles/forms.py`
and `articles/views.py` as pure Lean functions over an explicit record store,
together with theorems about the embedded handlers.

Conventions of the embedding:
- Users are identified by their primary key (`Nat`); a requester is always an
  authenticated user (every view of interest carries `LoginRequiredMixin`, so
  the unauthenticated redirect-to-login path is outside the embedded state
  space).
- The record store holds the user table (as the list of existing user ids),
  the article table and the comment table, plus the store-assigned next
  primary keys and the current clock value used for `auto_now_add`.
- Django form validation is embedded by an error-list function per form,
  following the field declarations: a `CharField` is required (blank
  rejected) and bounded by its `max_length`; a `TextField` is required; a
  `ForeignKey` form field (`ModelChoiceField`) is required and must name an
  existing row.
-/

namespace Newspaper

/-- `Article` model (`articles/models.py`): `title = CharField(max_length=200)`,
`body = TextField()`, `date = DateTimeField(auto_now_add=True)`,
`author = ForeignKey(AUTH_USER_MODEL, on_delete=CASCADE)`; plus the implicit
store-assigned primary key. The timestamp is embedded as a `Nat` clock value. -/
structure Article where
  id : Nat
  title : String
  body : String
  date : Nat
  author : Nat
deriving Repr, DecidableEq

/-- `Comments` model (`articles/models.py`): `article = ForeignKey(Article,
on_delete=CASCADE)`, `comment = CharField(max_length=200)`,
`author = ForeignKey(AUTH_USER_MODEL, on_delete=CASCADE)`; plus the implicit
store-assigned primary key. -/
structure Comments where
  id : Nat
  article : Nat
  comment : String
  author : Nat
deriving Repr, DecidableEq

/-- The record store: the user, article and comment tables, the next
store-assigned primary keys, and the clock used for `auto_now_add`. -/
structure Store where
  users : List Nat
  articles : List Article
  comments : List Comments
  nextArticleId : Nat
  nextCommentId : Nat
  now : Nat
deriving Repr, DecidableEq

/-- URL targets produced by `reverse` / `reverse_lazy` in the views and
models: `article_list` and `article_detail` (parameterized by pk). -/
inductive Url where
  | articleList : Url
  | articleDetail (pk : Nat) : Url
deriving Repr, DecidableEq

/-- `Article.get_absolute_url` (`articles/models.py`):
`reverse("article_detail", kwargs={"pk": self.pk})`. -/
def Article.get_absolute_url (a : Article) : Url :=
  Url.articleDetail a.id

/-- `Comments.get_absolute_url` (`articles/models.py`):
`reverse("article_list")` — no argument, the article list page. -/
def Comments.get_absolute_url (_c : Comments) : Url :=
  Url.articleList

/-- Primary-key lookup used by every detail-type view
(`SingleObjectMixin.get_object` with the model's pk): the first article whose
id equals the requested pk, `none` meaning the Http404 outcome. -/
def findArticle (s : Store) (pk : Nat) : Option Article :=
  s.articles.find? (fun a => a.id == pk)

/-- The data bound by `CommentForm` (`articles/forms.py`):
`fields = ("comment", "author")`. The author field is the submitted choice of
user, `none` when the field is missing from the POST data. -/
structure CommentFormData where
  comment : String
  author : Option Nat
deriving Repr, DecidableEq

/-- Validation errors of `CommentForm`, following the model field
declarations: `comment` is a required `CharField(max_length=200)`; `author`
is a required choice of an existing user. An empty list means the form is
valid. -/
def commentFormErrors (s : Store) (d : CommentFormData) : List String :=
  (if d.comment = "" then ["comment: required"]
   else if d.comment.length > 200 then ["comment: max_length"]
   else []) ++
  (match d.author with
   | none => ["author: required"]
   | some u => if s.users.contains u then [] else ["author: invalid choice"])

/-- Render context of the article detail template (`article_detail.html`):
the fetched article, the bound form data (`none` for a blank unbound
`CommentForm()` instance), and the form's field-level errors. -/
structure DetailContext where
  article : Article
  boundData : Option CommentFormData
  formErrors : List String
deriving Repr, DecidableEq

/-- The data bound by the article create/update views:
`fields = ("title", "body")` on both `ArticleCreateView` and
`ArticleUpdateView`. -/
structure ArticleFormData where
  title : String
  body : String
deriving Repr, DecidableEq

/-- Raw POST payload offered to the article create view; it may carry an
`author` value, which the form binding ignores because the view declares
`fields = ("title", "body")`. -/
structure RawArticlePost where
  title : String
  body : String
  author : Option Nat
deriving Repr, DecidableEq

/-- Form binding of `ArticleCreateView` / `ArticleUpdateView`: only `title`
and `body` are bound; any submitted author value is dropped. -/
def bindArticleForm (raw : RawArticlePost) : ArticleFormData :=
  { title := raw.title, body := raw.body }

/-- Validation errors of the article model form over
`fields = ("title", "body")`: `title` is a required
`CharField(max_length=200)`, `body` is a required `TextField`. -/
def articleFormErrors (d : ArticleFormData) : List String :=
  (if d.title = "" then ["title: required"]
   else if d.title.length > 200 then ["title: max_length"]
   else []) ++
  (if d.body = "" then ["body: required"] else [])

/-- HTTP-level outcome of an embedded view invocation. -/
inductive Response where
  | notFound : Response
  | forbidden : Response
  | redirect (target : Url) : Response
  | render (status : Nat) (ctx : DetailContext) : Response
  | renderEdit (status : Nat) (a : Article) (d : ArticleFormData)
      (errors : List String) : Response
  | renderNew (status : Nat) (d : ArticleFormData)
      (errors : List String) : Response
deriving Repr, DecidableEq

/-- `CommentGet` (`articles/views.py`): a `DetailView` over `Article` whose
`get_context_data` adds a blank `CommentForm()` to the context. Fetch the
article by pk (Http404 when absent) and render the detail template with the
article and a blank unbound form; the store is returned unchanged. -/
def commentGet (s : Store) (pk : Nat) : Store × Response :=
  match findArticle s pk with
  | none => (s, Response.notFound)
  | some a => (s, Response.render 200 ⟨a, none, []⟩)

/-- `CommentPost` (`articles/views.py`): `SingleObjectMixin` + `FormView`
over `Article` with `form_class = CommentForm`. `post` first re-fetches the
article via `get_object` (Http404 when absent); on a valid form,
`form_valid` saves the comment with `comment.article = self.object` (the
author comes from the bound form data, `request.user` is not consulted) and
redirects to `get_success_url`, which is `reverse("article_detail", pk)`;
on an invalid form, the detail template is re-rendered with the bound data
and its errors at status 200. The `requester` argument is the authenticated
user of the request, which this view does not use. -/
def commentPost (s : Store) (pk : Nat) (d : CommentFormData) (requester : Nat) :
    Store × Response :=
  match findArticle s pk with
  | none => (s, Response.notFound)
  | some a =>
    let errs := commentFormErrors s d
    if errs.isEmpty then
      let c : Comments :=
        { id := s.nextCommentId
          article := a.id
          comment := d.comment
          author := d.author.getD 0 }
      ({ s with
          comments := s.comments ++ [c]
          nextCommentId := s.nextCommentId + 1 },
       Response.redirect (Url.articleDetail a.id))
    else
      (s, Response.render 200 ⟨a, some d, errs⟩)

/-- HTTP verb of a request hitting `/articles/<id>/`. -/
inductive Verb where
  | get : Verb
  | post : Verb
deriving Repr, DecidableEq

/-- `ArticleDetailView` (`articles/views.py`): the verb router at
`/articles/<id>/`. `get` delegates to `CommentGet.as_view()` and `post`
delegates to `CommentPost.as_view()`, both on the same pk from the path. -/
def articleDetailView (s : Store) (pk : Nat) (v : Verb) (d : CommentFormData)
    (requester : Nat) : Store × Response :=
  match v with
  | Verb.get => commentGet s pk
  | Verb.post => commentPost s pk d requester

/-- `ArticleUpdateView.test_func` (`articles/views.py`):
`obj = self.get_object(); return obj.author == self.request.user`. The
`none` outcome is the Http404 raised by `get_object` before the guard can
answer. -/
def updateView_test_func (s : Store) (pk : Nat) (requester : Nat) :
    Option Bool :=
  (findArticle s pk).map (fun a => a.author == requester)

/-- `ArticleDeleteView.test_func` (`articles/views.py`): textually the same
guard as the update view's: `obj.author == self.request.user`. -/
def deleteView_test_func (s : Store) (pk : Nat) (requester : Nat) :
    Option Bool :=
  (findArticle s pk).map (fun a => a.author == requester)

/-- `ArticleUpdateView` (`articles/views.py`) POST path: `UpdateView` over
`Article` with `fields = ("title", "body")` behind `UserPassesTestMixin`.
The object is fetched (Http404 when absent), the ownership guard runs before
any mutation (403 on failure, store untouched), and on a valid form only the
bound `title` and `body` of the stored row are replaced; success redirects
to `Article.get_absolute_url`. -/
def articleUpdateView (s : Store) (pk : Nat) (requester : Nat)
    (d : ArticleFormData) : Store × Response :=
  match findArticle s pk with
  | none => (s, Response.notFound)
  | some a =>
    if a.author == requester then
      let errs := articleFormErrors d
      if errs.isEmpty then
        let a2 := { a with title := d.title, body := d.body }
        ({ s with
            articles := s.articles.map (fun x => if x.id == pk then a2 else x) },
         Response.redirect (Url.articleDetail a.id))
      else
        (s, Response.renderEdit 200 a d errs)
    else
      (s, Response.forbidden)

/-- `ArticleDeleteView` (`articles/views.py`) POST path: `DeleteView` over
`Article` behind the same ownership guard, with
`success_url = reverse_lazy("article_list")`. The object is fetched (Http404
when absent), the guard runs before any mutation (403 on failure, store
untouched), and deletion removes the article row; the removal of every
comment row whose `article` foreign key names the deleted row follows the
`on_delete=models.CASCADE` declaration on `Comments.article`
(`articles/models.py`). -/
def articleDeleteView (s : Store) (pk : Nat) (requester : Nat) :
    Store × Response :=
  match findArticle s pk with
  | none => (s, Response.notFound)
  | some a =>
    if a.author == requester then
      ({ s with
          articles := s.articles.filter (fun x => !(x.id == pk))
          comments := s.comments.filter (fun c => !(c.article == pk)) },
       Response.redirect Url.articleList)
    else
      (s, Response.forbidden)

/-- `ArticleCreateView` (`articles/views.py`): `CreateView` over `Article`
with `fields = ("title", "body")`; `form_valid` sets
`form.instance.author = self.request.user` before saving, and `date` is the
store clock (`auto_now_add=True`). Success redirects to
`Article.get_absolute_url`; an invalid form re-renders with errors. -/
def articleCreateView (s : Store) (requester : Nat) (raw : RawArticlePost) :
    Store × Response :=
  let d := bindArticleForm raw
  let errs := articleFormErrors d
  if errs.isEmpty then
    let a : Article :=
      { id := s.nextArticleId
        title := d.title
        body := d.body
        date := s.now
        author := requester }
    ({ s with
        articles := s.articles ++ [a]
        nextArticleId := s.nextArticleId + 1 },
     Response.redirect (Url.articleDetail a.id))
  else
    (s, Response.renderNew 200 d errs)

/-- Referential integrity of comments: every comment's `article` foreign key
names an existing article row. -/
def noOrphans (s : Store) : Prop :=
  ∀ c ∈ s.comments, ∃ a ∈ s.articles, a.id = c.article

instance (s : Store) : Decidable (noOrphans s) := by
  unfold noOrphans
  infer_instance

/-- Helper: the primary key of the article found by `findArticle s pk` is
`pk` itself. -/
theorem findArticle_id (s : Store) (pk : Nat) (a : Article)
    (ha : findArticle s pk = some a) : a.id = pk := by
  have h := List.find?_some ha
  simpa using h

/-- Helper: the article found by `findArticle s pk` is a row of the store's
article table. -/
theorem findArticle_mem (s : Store) (pk : Nat) (a : Article)
    (ha : findArticle s pk = some a) : a ∈ s.articles :=
  List.mem_of_find?_eq_some ha

/-- Helper: when article ids are unique, any article row with the looked-up
pk is the looked-up row itself. -/
theorem findArticle_unique (s : Store) (pk : Nat) (a : Article)
    (ha : findArticle s pk = some a)
    (hnodup : (s.articles.map Article.id).Nodup)
    (x : Article) (hx : x ∈ s.articles) (hid : x.id = pk) : x = a := by
  have hmem := findArticle_mem s pk a ha
  have haid := findArticle_id s pk a ha
  exact List.inj_on_of_nodup_map hnodup hx hmem (by rw [hid, haid])

/-- C10: for every Comment, `Comments.get_absolute_url` is the article list
page, and in particular it is not the detail location of the comment's
parent article. -/
theorem C10_comment_url_is_article_list (c : Comments) :
    Comments.get_absolute_url c = Url.articleList ∧
    Comments.get_absolute_url c ≠ Url.articleDetail c.article := by
  refine ⟨rfl, ?_⟩
  intro h
  simp [Comments.get_absolute_url] at h

/-- C7: the verb router `ArticleDetailView` is pure dispatch: on any store,
pk, submitted data and requester, its GET handling is exactly `CommentGet`'s
behavior and its POST handling is exactly `CommentPost`'s behavior, both on
the same pk, and it touches no state of its own. -/
theorem C7_router_pure_dispatch (s : Store) (pk : Nat) (d : CommentFormData)
    (requester : Nat) :
    articleDetailView s pk Verb.get d requester = commentGet s pk ∧
    articleDetailView s pk Verb.post d requester = commentPost s pk d requester :=
  ⟨rfl, rfl⟩

/-- C4: when the pk resolves to no article, both the display path (GET) and
the mutation path (POST) fail with NotFound through the same lookup
`findArticle`, the store is unchanged, and no Comment is persisted. -/
theorem C4_missing_article_not_found (s : Store) (pk : Nat)
    (d : CommentFormData) (requester : Nat)
    (h : findArticle s pk = none) :
    commentGet s pk = (s, Response.notFound) ∧
    commentPost s pk d requester = (s, Response.notFound) := by
  constructor <;> simp [commentGet, commentPost, h]

/-- C4 witness: a store whose article table is empty. -/
theorem C4_missing_article_not_found_witness :
    commentGet ⟨[1], [], [], 1, 1, 0⟩ 5 = (⟨[1], [], [], 1, 1, 0⟩, Response.notFound) ∧
    commentPost ⟨[1], [], [], 1, 1, 0⟩ 5 ⟨"hi", some 1⟩ 1
      = (⟨[1], [], [], 1, 1, 0⟩, Response.notFound) :=
  C4_missing_article_not_found ⟨[1], [], [], 1, 1, 0⟩ 5 ⟨"hi", some 1⟩ 1 rfl

/-- C8: the display handler `CommentGet` never changes the store (on any pk,
including missing ones), and on an existing article renders status 200 with
a context holding that article and a blank unbound form with no errors. -/
theorem C8_display_pure_render (s : Store) (pk pk2 : Nat) (a : Article)
    (ha : findArticle s pk = some a) :
    (commentGet s pk).1 = s ∧
    (commentGet s pk).2 = Response.render 200 ⟨a, none, []⟩ ∧
    (commentGet s pk2).1 = s := by
  refine ⟨by simp [commentGet, ha], by simp [commentGet, ha], ?_⟩
  cases h : findArticle s pk2 <;> simp [commentGet, h]

/-- C8 witness: a store holding one article. -/
theorem C8_display_pure_render_witness :
    (commentGet ⟨[1], [⟨1, "t", "b", 0, 1⟩], [], 2, 1, 0⟩ 1).1
      = ⟨[1], [⟨1, "t", "b", 0, 1⟩], [], 2, 1, 0⟩ ∧
    (commentGet ⟨[1], [⟨1, "t", "b", 0, 1⟩], [], 2, 1, 0⟩ 1).2
      = Response.render 200 ⟨⟨1, "t", "b", 0, 1⟩, none, []⟩ ∧
    (commentGet ⟨[1], [⟨1, "t", "b", 0, 1⟩], [], 2, 1, 0⟩ 9).1
      = ⟨[1], [⟨1, "t", "b", 0, 1⟩], [], 2, 1, 0⟩ :=
  C8_display_pure_render ⟨[1], [⟨1, "t", "b", 0, 1⟩], [], 2, 1, 0⟩ 1 9
    ⟨1, "t", "b", 0, 1⟩ (by decide)

/-- C3: on an existing article, a submission whose form data fails
validation makes `CommentPost` re-render the detail page at status 200 (not
a redirect) with the bound data and its non-empty field-level errors, the
store unchanged (zero new Comment rows); and empty comment text always fails
validation. -/
theorem C3_invalid_comment_rerenders (s : Store) (pk : Nat)
    (d : CommentFormData) (requester : Nat) (a : Article) (au : Option Nat)
    (ha : findArticle s pk = some a)
    (hinv : (commentFormErrors s d).isEmpty = false) :
    commentPost s pk d requester
      = (s, Response.render 200 ⟨a, some d, commentFormErrors s d⟩) ∧
    commentFormErrors s d ≠ [] ∧
    (commentFormErrors s ⟨"", au⟩).isEmpty = false := by
  refine ⟨by simp [commentPost, ha, hinv], ?_, ?_⟩
  · simpa [List.isEmpty_iff] using hinv
  · cases au with
    | none => simp [commentFormErrors]
    | some u => simp [commentFormErrors]

/-- C3 witness: submitting an empty comment on an existing article. -/
theorem C3_invalid_comment_rerenders_witness :
    commentPost ⟨[1], [⟨1, "t", "b", 0, 1⟩], [], 2, 1, 0⟩ 1 ⟨"", some 1⟩ 1
      = (⟨[1], [⟨1, "t", "b", 0, 1⟩], [], 2, 1, 0⟩,
         Response.render 200
           ⟨⟨1, "t", "b", 0, 1⟩, some ⟨"", some 1⟩, ["comment: required"]⟩) ∧
    commentFormErrors ⟨[1], [⟨1, "t", "b", 0, 1⟩], [], 2, 1, 0⟩ ⟨"", some 1⟩ ≠ [] ∧
    (commentFormErrors ⟨[1], [⟨1, "t", "b", 0, 1⟩], [], 2, 1, 0⟩ ⟨"", some 9⟩).isEmpty
      = false :=
  C3_invalid_comment_rerenders ⟨[1], [⟨1, "t", "b", 0, 1⟩], [], 2, 1, 0⟩ 1
    ⟨"", some 1⟩ 1 ⟨1, "t", "b", 0, 1⟩ (some 9) (by decide) (by decide)

/-- C1 counterexample: the claim attributes the persisted comment to the
submitting user, but the code takes the author from the bound form field.
Requester 2 submits a valid comment naming user 1 in the author field on
article 1: exactly one row is persisted, and its author is 1, not the
requester 2. -/
theorem C1_counterexample_author_not_requester :
    (commentPost ⟨[1, 2], [⟨1, "Hello", "World", 0, 1⟩], [], 2, 10, 0⟩ 1
        ⟨"Nice post", some 1⟩ 2).1.comments
      = [⟨10, 1, "Nice post", 1⟩] ∧
    ¬ ∀ c ∈ (commentPost ⟨[1, 2], [⟨1, "Hello", "World", 0, 1⟩], [], 2, 10, 0⟩ 1
        ⟨"Nice post", some 1⟩ 2).1.comments, c.author = 2 := by
  constructor
  · rfl
  · decide

/-- C1 (amended): for every existing article and valid submission
(non-empty comment text within the 200-character bound, author field naming
an existing user), `CommentPost` persists exactly one new Comment row
associated with that article and with the author named by the submitted
author field (not necessarily the requester), and responds with a redirect
to that article's detail location. -/
theorem C1_amended_comment_persisted (s : Store) (pk : Nat)
    (d : CommentFormData) (requester : Nat) (a : Article)
    (ha : findArticle s pk = some a)
    (hv : (commentFormErrors s d).isEmpty = true) :
    (commentPost s pk d requester).1.comments
      = s.comments ++ [⟨s.nextCommentId, a.id, d.comment, d.author.getD 0⟩] ∧
    (commentPost s pk d requester).2
      = Response.redirect (Url.articleDetail a.id) := by
  constructor <;> simp [commentPost, ha, hv]

/-- C1 witness: requester 2 posts a valid comment naming author 1 on
article 1. -/
theorem C1_amended_comment_persisted_witness :
    (commentPost ⟨[1, 2], [⟨1, "Hi", "B", 0, 1⟩], [], 2, 7, 0⟩ 1
        ⟨"Great", some 1⟩ 2).1.comments
      = [⟨7, 1, "Great", 1⟩] ∧
    (commentPost ⟨[1, 2], [⟨1, "Hi", "B", 0, 1⟩], [], 2, 7, 0⟩ 1
        ⟨"Great", some 1⟩ 2).2
      = Response.redirect (Url.articleDetail 1) :=
  C1_amended_comment_persisted ⟨[1, 2], [⟨1, "Hi", "B", 0, 1⟩], [], 2, 7, 0⟩ 1
    ⟨"Great", some 1⟩ 2 ⟨1, "Hi", "B", 0, 1⟩ (by decide) (by decide)

/-- C9: the persisted comment's author comes entirely from the submitted
author field, not from the session: the handler's result is identical for
any two requesters given the same form data; the persisted row's author is
the submitted field's value; and a submission with a missing author field or
one naming a non-existent user fails validation and creates no row. -/
theorem C9_author_from_form_field (s : Store) (pk : Nat)
    (d : CommentFormData) (r1 r2 : Nat) (a : Article) (t : String) (u : Nat)
    (ha : findArticle s pk = some a)
    (hv : (commentFormErrors s d).isEmpty = true)
    (hu : s.users.contains u = false) :
    commentPost s pk d r1 = commentPost s pk d r2 ∧
    (commentPost s pk d r1).1.comments
      = s.comments ++ [⟨s.nextCommentId, a.id, d.comment, d.author.getD 0⟩] ∧
    (commentPost s pk ⟨t, none⟩ r1).1 = s ∧
    (commentPost s pk ⟨t, some u⟩ r1).1 = s ∧
    commentFormErrors s ⟨t, none⟩ ≠ [] ∧
    commentFormErrors s ⟨t, some u⟩ ≠ [] := by
  have hu2 : u ∉ s.users := by simpa using hu
  refine ⟨rfl, by simp [commentPost, ha, hv], ?_, ?_, ?_, ?_⟩
  · simp [commentPost, ha, commentFormErrors]
  · simp [commentPost, ha, commentFormErrors, hu2]
  · simp [commentFormErrors]
  · simp [commentFormErrors, hu2]

/-- C9 witness: article 1 exists, user 9 does not; the valid submission
names user 2 as author while requesters 1 and 2 differ. -/
theorem C9_author_from_form_field_witness :
    commentPost ⟨[1, 2], [⟨1, "T", "B", 0, 1⟩], [], 2, 4, 0⟩ 1 ⟨"ok", some 2⟩ 1
      = commentPost ⟨[1, 2], [⟨1, "T", "B", 0, 1⟩], [], 2, 4, 0⟩ 1 ⟨"ok", some 2⟩ 2 ∧
    (commentPost ⟨[1, 2], [⟨1, "T", "B", 0, 1⟩], [], 2, 4, 0⟩ 1
        ⟨"ok", some 2⟩ 1).1.comments
      = [⟨4, 1, "ok", 2⟩] ∧
    (commentPost ⟨[1, 2], [⟨1, "T", "B", 0, 1⟩], [], 2, 4, 0⟩ 1 ⟨"x", none⟩ 1).1
      = ⟨[1, 2], [⟨1, "T", "B", 0, 1⟩], [], 2, 4, 0⟩ ∧
    (commentPost ⟨[1, 2], [⟨1, "T", "B", 0, 1⟩], [], 2, 4, 0⟩ 1 ⟨"x", some 9⟩ 1).1
      = ⟨[1, 2], [⟨1, "T", "B", 0, 1⟩], [], 2, 4, 0⟩ ∧
    commentFormErrors ⟨[1, 2], [⟨1, "T", "B", 0, 1⟩], [], 2, 4, 0⟩ ⟨"x", none⟩ ≠ [] ∧
    commentFormErrors ⟨[1, 2], [⟨1, "T", "B", 0, 1⟩], [], 2, 4, 0⟩ ⟨"x", some 9⟩ ≠ [] :=
  C9_author_from_form_field ⟨[1, 2], [⟨1, "T", "B", 0, 1⟩], [], 2, 4, 0⟩ 1
    ⟨"ok", some 2⟩ 1 2 ⟨1, "T", "B", 0, 1⟩ "x" 9
    (by decide) (by decide) (by decide)

/-- C2: for an authenticated requester who is not the stored author of an
existing article, both the edit and the delete views answer Forbidden with
the store untouched (the guard runs before any mutation); the guard itself,
shared in identical form by both views, answers exactly whether the stored
author equals the requester. -/
theorem C2_ownership_guard (s : Store) (pk requester r2 : Nat) (a : Article)
    (d : ArticleFormData)
    (ha : findArticle s pk = some a) (hne : a.author ≠ requester) :
    articleUpdateView s pk requester d = (s, Response.forbidden) ∧
    articleDeleteView s pk requester = (s, Response.forbidden) ∧
    updateView_test_func s pk r2 = some (a.author == r2) ∧
    deleteView_test_func s pk r2 = some (a.author == r2) ∧
    updateView_test_func s pk r2 = deleteView_test_func s pk r2 := by
  have hb : (a.author == requester) = false := by simpa using hne
  refine ⟨by simp [articleUpdateView, ha, hb],
    by simp [articleDeleteView, ha, hb],
    by simp [updateView_test_func, ha],
    by simp [deleteView_test_func, ha], ?_⟩
  simp [updateView_test_func, deleteView_test_func]

/-- C2 witness: article 1 belongs to user 1; requester 2 is rejected, and
the guard evaluated at user 1 answers true. -/
theorem C2_ownership_guard_witness :
    articleUpdateView ⟨[1, 2], [⟨1, "t", "b", 0, 1⟩], [], 2, 1, 0⟩ 1 2 ⟨"x", "y"⟩
      = (⟨[1, 2], [⟨1, "t", "b", 0, 1⟩], [], 2, 1, 0⟩, Response.forbidden) ∧
    articleDeleteView ⟨[1, 2], [⟨1, "t", "b", 0, 1⟩], [], 2, 1, 0⟩ 1 2
      = (⟨[1, 2], [⟨1, "t", "b", 0, 1⟩], [], 2, 1, 0⟩, Response.forbidden) ∧
    updateView_test_func ⟨[1, 2], [⟨1, "t", "b", 0, 1⟩], [], 2, 1, 0⟩ 1 1
      = some true ∧
    deleteView_test_func ⟨[1, 2], [⟨1, "t", "b", 0, 1⟩], [], 2, 1, 0⟩ 1 1
      = some true ∧
    updateView_test_func ⟨[1, 2], [⟨1, "t", "b", 0, 1⟩], [], 2, 1, 0⟩ 1 1
      = deleteView_test_func ⟨[1, 2], [⟨1, "t", "b", 0, 1⟩], [], 2, 1, 0⟩ 1 1 :=
  C2_ownership_guard ⟨[1, 2], [⟨1, "t", "b", 0, 1⟩], [], 2, 1, 0⟩ 1 2 1
    ⟨1, "t", "b", 0, 1⟩ ⟨"x", "y"⟩ (by decide) (by decide)

/-- C5: an article's author is set exactly once at creation from the
requester — the create view's outcome ignores any submitted author value,
and on a valid form the new row carries the requester as author and the
store clock as its timestamp — and the edit view never changes any stored
article's id, author or creation timestamp (given store-unique ids). -/
theorem C5_author_set_once_immutable (s s2 : Store)
    (requester requester2 pk : Nat) (raw raw2 : RawArticlePost)
    (d : ArticleFormData)
    (hsame : raw.title = raw2.title) (hbody : raw.body = raw2.body)
    (hv : (articleFormErrors (bindArticleForm raw)).isEmpty = true)
    (hnodup : (s2.articles.map Article.id).Nodup) :
    articleCreateView s requester raw = articleCreateView s requester raw2 ∧
    (articleCreateView s requester raw).1.articles
      = s.articles ++ [⟨s.nextArticleId, raw.title, raw.body, s.now, requester⟩] ∧
    (articleUpdateView s2 pk requester2 d).1.articles.map
        (fun x => (x.id, x.author, x.date))
      = s2.articles.map (fun x => (x.id, x.author, x.date)) := by
  have hbind : bindArticleForm raw = bindArticleForm raw2 := by
    simp [bindArticleForm, hsame, hbody]
  refine ⟨?_, ?_, ?_⟩
  · unfold articleCreateView
    rw [hbind]
  · have hv2 : articleFormErrors ⟨raw.title, raw.body⟩ = [] := by
      simpa [bindArticleForm, List.isEmpty_iff] using hv
    simp [articleCreateView, bindArticleForm, hv2]
  · unfold articleUpdateView
    cases h2 : findArticle s2 pk with
    | none => simp
    | some b =>
      by_cases hown : (b.author == requester2) = true
      · by_cases hvv : (articleFormErrors d).isEmpty = true
        · simp only [hown, hvv, if_true]
          rw [List.map_map]
          apply List.map_congr_left
          intro x hx
          by_cases hid : x.id = pk
          · have hxb : x = b := findArticle_unique s2 pk b h2 hnodup x hx hid
            subst hxb
            simp [Function.comp, hid]
          · have hidb : (x.id == pk) = false := by simpa using hid
            simp [Function.comp, hidb]
        · simp [hown, hvv]
      · simp [hown]

/-- C5 witness: two create submissions differing only in a submitted author
value coincide; the created row carries the requester; an owner edit leaves
id, author and timestamp of every row intact. -/
theorem C5_author_set_once_immutable_witness :
    articleCreateView ⟨[1], [], [], 3, 1, 5⟩ 1 ⟨"T", "B", none⟩
      = articleCreateView ⟨[1], [], [], 3, 1, 5⟩ 1 ⟨"T", "B", some 9⟩ ∧
    (articleCreateView ⟨[1], [], [], 3, 1, 5⟩ 1 ⟨"T", "B", none⟩).1.articles
      = [⟨3, "T", "B", 5, 1⟩] ∧
    (articleUpdateView ⟨[1], [⟨1, "t", "b", 7, 1⟩], [], 2, 1, 0⟩ 1 1
        ⟨"new", "nb"⟩).1.articles.map (fun x => (x.id, x.author, x.date))
      = [⟨1, "t", "b", 7, 1⟩].map
          (fun x : Article => (x.id, x.author, x.date)) :=
  C5_author_set_once_immutable ⟨[1], [], [], 3, 1, 5⟩
    ⟨[1], [⟨1, "t", "b", 7, 1⟩], [], 2, 1, 0⟩ 1 1 1
    ⟨"T", "B", none⟩ ⟨"T", "B", some 9⟩ ⟨"new", "nb"⟩
    rfl rfl (by decide) (by decide)

/-- C6: an owner's delete of an article removes every comment whose parent
is that article (cascade) — the resulting table has no comment referencing
the deleted pk — and referential integrity is preserved: the deleted store
has no orphans, and comment creation cannot introduce one either. -/
theorem C6_cascade_delete_no_orphans (s s2 : Store) (pk pk2 requester r : Nat)
    (a : Article) (d : CommentFormData)
    (ha : findArticle s pk = some a) (hown : a.author = requester)
    (hno : noOrphans s) (hno2 : noOrphans s2) :
    (articleDeleteView s pk requester).1.comments.filter
        (fun c => c.article == pk) = [] ∧
    noOrphans (articleDeleteView s pk requester).1 ∧
    noOrphans (commentPost s2 pk2 d r).1 := by
  have hb : (a.author == requester) = true := by simpa using hown
  refine ⟨?_, ?_, ?_⟩
  · simp only [articleDeleteView, ha, hb, if_true]
    rw [List.filter_eq_nil_iff]
    intro c hc
    have hq := (List.mem_filter.mp hc).2
    simp at hq ⊢
    exact hq
  · simp only [articleDeleteView, ha, hb, if_true]
    intro c hc
    simp only [List.mem_filter] at hc
    obtain ⟨hmem, hq⟩ := hc
    obtain ⟨b, hbmem, hbid⟩ := hno c hmem
    refine ⟨b, List.mem_filter.mpr ⟨hbmem, ?_⟩, hbid⟩
    simp at hq ⊢
    rw [hbid]
    exact hq
  · cases h3 : findArticle s2 pk2 with
    | none => simpa [commentPost, h3] using hno2
    | some b =>
      by_cases hvv : (commentFormErrors s2 d).isEmpty = true
      · simp only [commentPost, h3, hvv, if_true]
        intro c hc
        simp only [List.mem_append, List.mem_singleton] at hc
        rcases hc with hc | hc
        · exact hno2 c hc
        · subst hc
          exact ⟨b, findArticle_mem s2 pk2 b h3, rfl⟩
      · have hvv2 : (commentFormErrors s2 d).isEmpty = false := by
          simpa using hvv
        simpa [commentPost, h3, hvv2] using hno2

/-- C6 witness: user 1 owns articles 1 and 2, each with one comment;
deleting article 1 leaves no comment referencing it and no orphan, and a
valid comment creation on article 2 preserves integrity. -/
theorem C6_cascade_delete_no_orphans_witness :
    (articleDeleteView
        ⟨[1], [⟨1, "t", "b", 0, 1⟩, ⟨2, "u", "c", 0, 1⟩],
         [⟨1, 1, "x", 1⟩, ⟨2, 2, "y", 1⟩], 3, 3, 0⟩ 1 1).1.comments.filter
        (fun c => c.article == 1) = [] ∧
    noOrphans (articleDeleteView
        ⟨[1], [⟨1, "t", "b", 0, 1⟩, ⟨2, "u", "c", 0, 1⟩],
         [⟨1, 1, "x", 1⟩, ⟨2, 2, "y", 1⟩], 3, 3, 0⟩ 1 1).1 ∧
    noOrphans (commentPost
        ⟨[1], [⟨1, "t", "b", 0, 1⟩, ⟨2, "u", "c", 0, 1⟩],
         [⟨1, 1, "x", 1⟩, ⟨2, 2, "y", 1⟩], 3, 3, 0⟩ 2 ⟨"z", some 1⟩ 1).1 :=
  C6_cascade_delete_no_orphans
    ⟨[1], [⟨1, "t", "b", 0, 1⟩, ⟨2, "u", "c", 0, 1⟩],
     [⟨1, 1, "x", 1⟩, ⟨2, 2, "y", 1⟩], 3, 3, 0⟩
    ⟨[1], [⟨1, "t", "b", 0, 1⟩, ⟨2, "u", "c", 0, 1⟩],
     [⟨1, 1, "x", 1⟩, ⟨2, 2, "y", 1⟩], 3, 3, 0⟩
    1 2 1 1 ⟨1, "t", "b", 0, 1⟩ ⟨"z", some 1⟩
    (by decide) (by decide) (by decide) (by decide)

end Newspaper
